import Mathlib

/-!
Verification of the audio-pipeline utility scripts.

Shallow embedding of the four scripts:
  - src/script/adjust_speech_timing.py  (duration probe, tempo adjuster, atempo
    fallback planner, CLI entry point)
  - src/script/separate_audio.py        (chunked processing loop)
  - src/script/separate_audio_demucs.py (segment-size heuristic)
  - src/script/download_audio.py        (module body with a name-resolution bug)

Python floats are modelled as exact rationals (ℚ); every float operation the
modelled code performs on the relevant inputs (division by 2, by 0.5, max/min,
comparison) is exact on floats as well, so the ℚ model agrees with the float
computation on dyadic inputs.  External processes (ffprobe, rubberband, ffmpeg)
are modelled as oracle fields of an environment record; file contents are byte
lists.
-/

/-- Ceiling measure step used by the peeling loops: halving a value above 2
strictly decreases its natural ceiling. -/
theorem ceil_div_two_lt {q : ℚ} (h : 2 < q) : Nat.ceil (q / 2) < Nat.ceil q := by
  have h1 : (0:ℚ) < q := lt_trans (by norm_num) h
  have h3 : (Nat.ceil (q / 2) : ℚ) < Nat.ceil q := by
    calc (Nat.ceil (q / 2) : ℚ) < q / 2 + 1 := Nat.ceil_lt_add_one (by positivity)
    _ < q := by linarith
    _ ≤ Nat.ceil q := Nat.le_ceil q
  exact_mod_cast h3

/-! ## Multiplier planner (fallback_to_atempo, lines 159-177) -/

/-- First peeling loop of fallback_to_atempo:
`while remaining > 2.0: filters.append(2.0); remaining /= 2.0`.
Returns the appended factors and the final remainder. -/
def peelHigh (q : ℚ) : List ℚ × ℚ :=
  if h : 2 < q then
    let r := peelHigh (q / 2)
    (2 :: r.1, r.2)
  else ([], q)
termination_by Nat.ceil q
decreasing_by
  exact ceil_div_two_lt h

/-- Second peeling loop of fallback_to_atempo:
`while remaining < 0.5: filters.append(0.5); remaining /= 0.5`.
The source loop condition is only `remaining < 0.5`; the conjunct `0 < q` is a
termination guard that differs from the source only on inputs `q ≤ 0`, on which
the source loop would not terminate at all — such inputs are unreachable, since
the loop runs on a value already clamped to at least 0.5. -/
def peelLow (q : ℚ) : List ℚ × ℚ :=
  if h : q < 1/2 ∧ 0 < q then
    let r := peelLow (q / (1/2))
    ((1:ℚ)/2 :: r.1, r.2)
  else ([], q)
termination_by Nat.ceil q⁻¹
decreasing_by
  have h1 : (0:ℚ) < q := h.2
  have h2 : 2 < q⁻¹ := by
    rw [show q⁻¹ = 1/q by ring, lt_div_iff₀ h1]
    linarith [h.1]
  have e : (q / (1/2))⁻¹ = q⁻¹ / 2 := by
    field_simp
  rw [e]
  exact ceil_div_two_lt h2

/-- Stretch plan built by fallback_to_atempo (lines 159-175): clamp the tempo to
[0.5, 100], peel factors of 2.0 while above 2.0, peel factors of 0.5 while
below 0.5, then append the remainder unless it equals 1.0. -/
def atempo_filters (tempo : ℚ) : List ℚ :=
  (peelHigh (max (1/2) (min 100 tempo))).1
    ++ (peelLow (peelHigh (max (1/2) (min 100 tempo))).2).1
    ++ (if (peelLow (peelHigh (max (1/2) (min 100 tempo))).2).2 ≠ 1
        then [(peelLow (peelHigh (max (1/2) (min 100 tempo))).2).2] else [])

theorem peelHigh_of_gt (q : ℚ) (h : 2 < q) :
    peelHigh q = (2 :: (peelHigh (q / 2)).1, (peelHigh (q / 2)).2) := by
  rw [peelHigh]
  simp [h]

theorem peelHigh_of_le (q : ℚ) (h : ¬ 2 < q) : peelHigh q = ([], q) := by
  rw [peelHigh]
  simp [h]

theorem peelLow_of_ge (q : ℚ) (h : 1/2 ≤ q) : peelLow q = ([], q) := by
  have hng : ¬ (q < 1/2 ∧ 0 < q) := by
    rintro ⟨h1, _⟩
    exact absurd h (not_le.mpr h1)
  rw [peelLow, dif_neg hng]

theorem peelHigh_prod (q : ℚ) : (peelHigh q).1.prod * (peelHigh q).2 = q := by
  rw [peelHigh]
  split
  · rename_i h
    have ih := peelHigh_prod (q / 2)
    simp only [List.prod_cons]
    field_simp at ih ⊢
    linarith [ih]
  · simp
termination_by Nat.ceil q
decreasing_by
  exact ceil_div_two_lt (by assumption)

theorem peelHigh_mem (q : ℚ) : ∀ s ∈ (peelHigh q).1, s = 2 := by
  rw [peelHigh]
  split
  · rename_i h
    intro s hs
    simp only [List.mem_cons] at hs
    rcases hs with rfl | hs
    · rfl
    · exact peelHigh_mem (q / 2) s hs
  · simp
termination_by Nat.ceil q
decreasing_by
  exact ceil_div_two_lt (by assumption)

theorem peelHigh_snd_le (q : ℚ) : (peelHigh q).2 ≤ 2 := by
  rw [peelHigh]
  split
  · exact peelHigh_snd_le (q / 2)
  · rename_i h
    simpa using le_of_not_lt h
termination_by Nat.ceil q
decreasing_by
  exact ceil_div_two_lt (by assumption)

theorem peelHigh_snd_lb (q : ℚ) (hq : 1/2 ≤ q) : 1/2 ≤ (peelHigh q).2 := by
  rw [peelHigh]
  split
  · rename_i h
    exact peelHigh_snd_lb (q / 2) (by linarith)
  · simpa using hq
termination_by Nat.ceil q
decreasing_by
  exact ceil_div_two_lt (by assumption)

/-- Product of the whole plan: always exactly the clamped tempo. -/
theorem atempo_filters_prod (t : ℚ) :
    (atempo_filters t).prod = max (1/2) (min 100 t) := by
  unfold atempo_filters
  set c := max (1/2) (min 100 t) with hc
  have hc2 : 1/2 ≤ c := le_max_left _ _
  have hlb : 1/2 ≤ (peelHigh c).2 := peelHigh_snd_lb c hc2
  rw [peelLow_of_ge _ hlb]
  simp only [List.prod_append, List.prod_nil, List.append_nil]
  by_cases h1 : (peelHigh c).2 = 1
  · simp only [h1, ne_eq, not_true_eq_false, if_neg, List.prod_nil, ite_false,
      not_false_eq_true, if_false]
    have := peelHigh_prod c
    rw [h1, mul_one] at this
    simp [this]
  · simp only [h1, ne_eq, not_false_eq_true, if_true, ite_true, List.prod_cons,
      List.prod_nil, mul_one]
    have := peelHigh_prod c
    simpa [mul_one] using this

/-- Every stage of the plan lies in [0.5, 2]. -/
theorem atempo_filters_mem (t : ℚ) :
    ∀ s ∈ atempo_filters t, 1/2 ≤ s ∧ s ≤ 2 := by
  unfold atempo_filters
  set c := max (1/2) (min 100 t) with hc
  have hc2 : 1/2 ≤ c := le_max_left _ _
  have hlb : 1/2 ≤ (peelHigh c).2 := peelHigh_snd_lb c hc2
  rw [peelLow_of_ge _ hlb]
  intro s hs
  simp only [List.append_nil, List.mem_append] at hs
  rcases hs with hs | hs
  · have := peelHigh_mem c s hs
    subst this
    norm_num
  · by_cases h1 : (peelHigh c).2 = 1
    · simp [h1] at hs
    · simp only [h1, ne_eq, not_false_eq_true, if_true, ite_true, List.mem_singleton] at hs
      subst hs
      exact ⟨hlb, peelHigh_snd_le c⟩

/-- Plan for an in-range tempo: identity clamp, no peeling, remainder kept
unless it is exactly 1. -/
theorem atempo_filters_in_range (m : ℚ) (h1 : 1/2 ≤ m) (h2 : m ≤ 2) :
    atempo_filters m = if m = 1 then [] else [m] := by
  unfold atempo_filters
  have hcl : max (1/2) (min 100 m) = m := by
    rw [min_eq_right (by linarith), max_eq_right h1]
  rw [hcl, peelHigh_of_le m (not_lt.mpr h2)]
  simp only
  rw [peelLow_of_ge m h1]
  by_cases hm : m = 1
  · simp [hm]
  · simp [hm]

/-- Concrete plan for tempo 50. -/
theorem atempo_filters_50 : atempo_filters 50 = [2, 2, 2, 2, 2, 25/16] := by
  have e1 : peelHigh (25/16) = ([], 25/16) := peelHigh_of_le _ (by norm_num)
  have e2 : peelHigh (25/8) = ([2], 25/16) := by
    rw [peelHigh_of_gt _ (by norm_num), show (25:ℚ)/8/2 = 25/16 by norm_num, e1]
  have e3 : peelHigh (25/4) = ([2,2], 25/16) := by
    rw [peelHigh_of_gt _ (by norm_num), show (25:ℚ)/4/2 = 25/8 by norm_num, e2]
  have e4 : peelHigh (25/2) = ([2,2,2], 25/16) := by
    rw [peelHigh_of_gt _ (by norm_num), show (25:ℚ)/2/2 = 25/4 by norm_num, e3]
  have e5 : peelHigh 25 = ([2,2,2,2], 25/16) := by
    rw [peelHigh_of_gt _ (by norm_num), show (25:ℚ)/2 = 25/2 by norm_num, e4]
  have e6 : peelHigh 50 = ([2,2,2,2,2], 25/16) := by
    rw [peelHigh_of_gt _ (by norm_num), show (50:ℚ)/2 = 25 by norm_num, e5]
  unfold atempo_filters
  rw [show max (1/2) (min 100 (50:ℚ)) = 50 by norm_num, e6]
  simp only
  rw [peelLow_of_ge _ (by norm_num)]
  norm_num

/-- C1 (counterexample): at m = 200 the claim as stated fails — the plan's
stages are in range, but its product is 100 (the clamp of 200 to [0.5, 100]),
which is not within 1e-6 relative tolerance of 200. -/
theorem C1_counterexample :
    ¬ ((∀ s ∈ atempo_filters 200, 1/2 ≤ s ∧ s ≤ 2) ∧
       |(atempo_filters 200).prod - 200| ≤ (1/1000000) * 200) := by
  intro hcl
  have hp : (atempo_filters 200).prod = 100 := by
    rw [atempo_filters_prod]
    norm_num
  have h2 := hcl.2
  rw [hp] at h2
  have he : |(100:ℚ) - 200| = 100 := by norm_num
  rw [he] at h2
  norm_num at h2

/-- C1 (amended): for every m outside the per-stage bounds (m > 2 or m < 0.5),
every stage of the fallback plan lies in [0.5, 2], and the product of the
stages equals the clamp of m to [0.5, 100] exactly — hence it equals m itself
exactly whenever 0.5 ≤ m ≤ 100, but not when m is outside the clamp range. -/
theorem C1_amended (m : ℚ) (h : 2 < m ∨ m < 1/2) :
    (∀ s ∈ atempo_filters m, 1/2 ≤ s ∧ s ≤ 2) ∧
    (atempo_filters m).prod = max (1/2) (min 100 m) ∧
    (1/2 ≤ m → m ≤ 100 → (atempo_filters m).prod = m) := by
  refine ⟨atempo_filters_mem m, atempo_filters_prod m, ?_⟩
  intro hl hu
  rw [atempo_filters_prod, min_eq_right hu, max_eq_right hl]

/-- C1 witness: the amended statement at m = 4. -/
theorem C1_amended_witness :
    (2 < (4:ℚ) ∨ (4:ℚ) < 1/2) ∧
    ((∀ s ∈ atempo_filters 4, 1/2 ≤ s ∧ s ≤ 2) ∧
     (atempo_filters 4).prod = max (1/2) (min 100 4) ∧
     (1/2 ≤ (4:ℚ) → (4:ℚ) ≤ 100 → (atempo_filters 4).prod = 4)) :=
  ⟨Or.inl (by norm_num), C1_amended 4 (Or.inl (by norm_num))⟩

/-- C3 (counterexample): m = 1 is within the native bounds [0.5, 2], but the
plan is empty, not the single-element list [1]. -/
theorem C3_counterexample : atempo_filters 1 ≠ [(1:ℚ)] := by
  rw [atempo_filters_in_range 1 (by norm_num) (by norm_num)]
  simp

/-- C3 (amended): for every multiplier within the primitive's native bounds
[0.5, 2], the plan is the single-element list [m], except at m = 1 exactly,
where the remainder is omitted as a no-op and the plan is empty. -/
theorem C3_amended (m : ℚ) (h1 : 1/2 ≤ m) (h2 : m ≤ 2) :
    atempo_filters m = if m = 1 then [] else [m] :=
  atempo_filters_in_range m h1 h2

/-- C3 witness: the amended statement at m = 3/2. -/
theorem C3_amended_witness :
    (1/2 ≤ (3/2:ℚ) ∧ (3/2:ℚ) ≤ 2) ∧
    atempo_filters (3/2) = if (3/2:ℚ) = 1 then [] else [3/2] :=
  ⟨by norm_num, C3_amended (3/2) (by norm_num) (by norm_num)⟩

/-- C4 (counterexample): the plan for the required multiplier 50 is not the
single-stage list [50]. -/
theorem C4_counterexample : atempo_filters 50 ≠ [(50:ℚ)] := by
  rw [atempo_filters_50]
  simp

/-- C4 (amended): current duration 100 and target duration 2 give required
multiplier 50, which lies inside the clamp bounds [0.5, 100] (so it is not
clamped), but the per-stage bound is 2.0, so the plan is the six-stage
decomposition [2, 2, 2, 2, 2, 1.5625], whose product is exactly 50 — not the
single-stage list [50]. -/
theorem C4_amended :
    (100:ℚ) / 2 = 50 ∧
    max (1/2) (min 100 (50:ℚ)) = 50 ∧
    atempo_filters 50 = [2, 2, 2, 2, 2, 25/16] ∧
    (atempo_filters 50).prod = 50 := by
  refine ⟨by norm_num, by norm_num, atempo_filters_50, ?_⟩
  rw [atempo_filters_50]
  norm_num

/-! ## Tempo adjuster control flow (adjust_speech_timing.py) -/

/-- Python exception values distinguished by the tempo-adjustment script. -/
inductive PyError
  | fileNotFound (msg : String)
  | valueError (msg : String)
  | runtimeError (msg : String)
  | zeroDivisionError
  deriving DecidableEq

/-- Message attached to an exception, as printed by the CLI handler. -/
def PyError.message : PyError → String
  | .fileNotFound m => m
  | .valueError m => m
  | .runtimeError m => m
  | .zeroDivisionError => "float division by zero"

/-- Duration probe (get_audio_duration, lines 13-30).  The ffprobe invocation
is modelled by its outcome: `.error ()` is a CalledProcessError (nonzero
exit), `.ok none` is a zero-exit run whose stdout float() cannot parse, and
`.ok (some d)` is a zero-exit run whose stdout parses to d.  The function
re-raises both failure cases as RuntimeError and returns the parsed value
unchanged otherwise — the source contains no positivity check. -/
def get_audio_duration (probe : Except Unit (Option ℚ)) : Except PyError ℚ :=
  match probe with
  | .error _ => .error (.runtimeError ("Error getting audio duration"))
  | .ok none => .error (.runtimeError ("Error"))
  | .ok (some d) => .ok d

deriving instance DecidableEq for Except

/-- Environment oracle for one invocation of the tempo adjuster: existence of
the input file, availability of rubberband (check_rubberband, lines 32-38),
the input file's bytes, and the outcome of each external command the script
may run. -/
structure Env where
  inputExists : Bool
  rubberbandAvailable : Bool
  inputBytes : List ℕ
  probeInput : Except Unit (Option ℚ)
  rubberbandOk : Bool
  rubberbandOut : List ℕ
  probeRubberbandOutput : Except Unit (Option ℚ)
  ffmpegOk : Bool
  ffmpegOut : List ℕ
  probeFfmpegOutput : Except Unit (Option ℚ)
  deriving DecidableEq

/-- Result dictionary returned by adjust_audio_tempo / fallback_to_atempo. -/
structure TempoResult where
  tempo_applied : ℚ
  tempo_required : ℚ
  stretch_ratio : ℚ
  processed : Bool
  current_duration : ℚ
  target_duration : ℚ
  final_duration : Option ℚ
  duration_difference : Option ℚ
  method_atempo_fallback : Bool
  deriving DecidableEq

/-- Stretch-executor fallback (fallback_to_atempo, lines 156-203).  Returns
the list of stretch backends invoked here (ffmpeg is attempted exactly once)
paired with either the result dict and output bytes or the raised exception.
A CalledProcessError from the ffmpeg run is caught and re-raised as the
combined RuntimeError; an error from re-probing the output escapes as its own
RuntimeError, exactly as in the source, whose except clause catches only
CalledProcessError. -/
def fallback_to_atempo (env : Env) (tempo current_duration target_duration : ℚ) :
    List String × Except PyError (TempoResult × List ℕ) :=
  (["ffmpeg"],
    if env.ffmpegOk then
      match get_audio_duration env.probeFfmpegOutput with
      | .error e => .error e
      | .ok final_duration =>
        .ok ({ tempo_applied := max (1/2) (min 100 tempo),
               tempo_required := tempo,
               stretch_ratio := 1 / max (1/2) (min 100 tempo),
               processed := true,
               current_duration := current_duration,
               target_duration := target_duration,
               final_duration := some final_duration,
               duration_difference := some |final_duration - target_duration|,
               method_atempo_fallback := true }, env.ffmpegOut)
    else .error (.runtimeError ("Both Rubberband and FFmpeg atempo failed")))

/-- Tempo adjuster (adjust_audio_tempo, lines 40-154).  Returns the list of
stretch backends invoked paired with either the result dict and the bytes
written to the output path or the raised exception.  The `current = 0` branch
models Python's ZeroDivisionError on `target_duration / current_duration`;
the skip branch copies the input bytes (shutil.copy2) without invoking any
backend. -/
def adjust_audio_tempo (env : Env) (target_duration : ℚ) :
    List String × Except PyError (TempoResult × List ℕ) :=
  if env.inputExists = false then
    ([], .error (.fileNotFound ("Input file not found")))
  else if target_duration ≤ 0 then
    ([], .error (.valueError ("Target duration must be positive")))
  else if env.rubberbandAvailable = false then
    ([], .error (.runtimeError ("Rubberband is not installed or not found in PATH")))
  else
    match get_audio_duration env.probeInput with
    | .error e => ([], .error e)
    | .ok current_duration =>
      if current_duration = 0 then ([], .error .zeroDivisionError)
      else if |max (3/10) (min 3 (target_duration / current_duration)) - 1| ≤ 1/20 then
        ([], .ok ({ tempo_applied := 1,
                    tempo_required := current_duration / target_duration,
                    stretch_ratio := 1,
                    processed := false,
                    current_duration := current_duration,
                    target_duration := target_duration,
                    final_duration := none,
                    duration_difference := none,
                    method_atempo_fallback := false }, env.inputBytes))
      else if env.rubberbandOk then
        match get_audio_duration env.probeRubberbandOutput with
        | .error e => (["rubberband"], .error e)
        | .ok final_duration =>
          (["rubberband"],
           .ok ({ tempo_applied := 1 / max (3/10) (min 3 (target_duration / current_duration)),
                  tempo_required := current_duration / target_duration,
                  stretch_ratio := max (3/10) (min 3 (target_duration / current_duration)),
                  processed := true,
                  current_duration := current_duration,
                  target_duration := target_duration,
                  final_duration := some final_duration,
                  duration_difference := some |final_duration - target_duration|,
                  method_atempo_fallback := false }, env.rubberbandOut))
      else
        (("rubberband") ::
           (fallback_to_atempo env (current_duration / target_duration)
             current_duration target_duration).1,
         (fallback_to_atempo env (current_duration / target_duration)
             current_duration target_duration).2)

/-- CLI outcome: exit code and the message printed to standard error, if any. -/
structure MainOutcome where
  exitCode : ℕ
  stderrMessage : Option String
  deriving DecidableEq

/-- CLI entry point invoked with exactly three arguments (main, lines
205-223): the argument-count check passes, the target parses to the given
rational, and any exception from adjust_audio_tempo is printed to standard
error followed by sys.exit(1); success prints only to stdout and exits 0. -/
def main_with_three_args (env : Env) (target_duration : ℚ) : MainOutcome :=
  match (adjust_audio_tempo env target_duration).2 with
  | .ok _ => { exitCode := 0, stderrMessage := none }
  | .error e => { exitCode := 1, stderrMessage := some (PyError.message e) }

/-- Concrete environment refuting C2 as stated: current duration 250, target
263, so the stretch ratio is 263/250 = 1.052 (not clamped) and the clamped
multiplier (clamped_tempo, line 82) is 250/263 ≈ 0.9506, within 5% of unity —
yet the code's skip test compares the stretch ratio, 1.052, against 0.05 and
proceeds to process. -/
def env_cex : Env :=
  { inputExists := true, rubberbandAvailable := true, inputBytes := [0],
    probeInput := .ok (some 250), rubberbandOk := true, rubberbandOut := [1],
    probeRubberbandOutput := .ok (some 263), ffmpegOk := true, ffmpegOut := [2],
    probeFfmpegOutput := .ok (some 263) }

/-- C2 (counterexample): an invocation whose clamped multiplier is within 5%
of unity (|250/263 − 1| ≤ 0.05) but which runs the external stretch backend,
reports processed = true, and writes bytes different from the input's. -/
theorem C2_counterexample :
    |1 / max (3/10) (min 3 ((263:ℚ) / 250)) - 1| ≤ 1/20 ∧
    (adjust_audio_tempo env_cex 263).1 = ["rubberband"] ∧
    ((adjust_audio_tempo env_cex 263).2.toOption.map (fun p => p.1.processed)) = some true ∧
    ((adjust_audio_tempo env_cex 263).2.toOption.map (fun p => p.2)) = some [1] ∧
    some ([1] : List ℕ) ≠ some env_cex.inputBytes := by
  have hmax : max (3/10) (min 3 ((263:ℚ) / 250)) = 263/250 := by
    rw [min_eq_right (by norm_num), max_eq_right (by norm_num)]
  have hadj : adjust_audio_tempo env_cex 263 =
      (["rubberband"],
       Except.ok ({ tempo_applied := 1 / max (3/10) (min 3 ((263:ℚ) / 250)),
                    tempo_required := 250 / 263,
                    stretch_ratio := max (3/10) (min 3 ((263:ℚ) / 250)),
                    processed := true,
                    current_duration := 250,
                    target_duration := 263,
                    final_duration := some 263,
                    duration_difference := some |(263:ℚ) - 263|,
                    method_atempo_fallback := false }, [1])) := by
    unfold adjust_audio_tempo
    rw [show env_cex.probeInput = Except.ok (some 250) from rfl]
    simp only [get_audio_duration]
    rw [if_neg (by simp [env_cex] : ¬ (env_cex.inputExists = false))]
    rw [if_neg (by norm_num : ¬ ((263:ℚ) ≤ 0))]
    rw [if_neg (by simp [env_cex] : ¬ (env_cex.rubberbandAvailable = false))]
    rw [if_neg (by norm_num : ¬ ((250:ℚ) = 0))]
    rw [if_neg (by rw [hmax, abs_le]; norm_num :
          ¬ (|max (3/10) (min 3 ((263:ℚ) / 250)) - 1| ≤ 1/20))]
    rw [if_pos (by simp [env_cex] : env_cex.rubberbandOk = true)]
    rw [show env_cex.probeRubberbandOutput = Except.ok (some 263) from rfl]
    simp only [get_audio_duration]
    rfl
  refine ⟨?_, ?_, ?_, ?_, by simp [env_cex]⟩
  · rw [hmax, abs_le]
    constructor <;> norm_num
  · rw [hadj]
  · rw [hadj]
    rfl
  · rw [hadj]
    rfl

/-- C2 (amended): when the clamped stretch ratio — the value the code actually
tests, line 89 — is within 5% of unity, no stretch backend is invoked, the
output bytes are exactly the input bytes, and the result reports
processed = false. -/
theorem C2_amended (env : Env) (target current : ℚ)
    (h1 : env.inputExists = true) (h2 : 0 < target)
    (h3 : env.rubberbandAvailable = true)
    (h4 : env.probeInput = Except.ok (some current)) (h5 : current ≠ 0)
    (h6 : |max (3/10) (min 3 (target / current)) - 1| ≤ 1/20) :
    (adjust_audio_tempo env target).1 = [] ∧
    (adjust_audio_tempo env target).2 =
      .ok ({ tempo_applied := 1, tempo_required := current / target,
             stretch_ratio := 1, processed := false,
             current_duration := current, target_duration := target,
             final_duration := none, duration_difference := none,
             method_atempo_fallback := false }, env.inputBytes) := by
  unfold adjust_audio_tempo
  rw [h1, h4]
  simp only [get_audio_duration]
  rw [if_neg (by simp : ¬ (true = false))]
  rw [if_neg (not_le.mpr h2)]
  rw [h3, if_neg (by simp : ¬ (true = false))]
  rw [if_neg h5, if_pos h6]
  exact ⟨rfl, rfl⟩

/-- C2 witness: the amended statement at current duration 100, target 100. -/
theorem C2_amended_witness :
    (env_cex.inputExists = true ∧ (0:ℚ) < 250 ∧ env_cex.rubberbandAvailable = true ∧
     env_cex.probeInput = Except.ok (some 250) ∧ (250:ℚ) ≠ 0 ∧
     |max (3/10) (min 3 ((250:ℚ) / 250)) - 1| ≤ 1/20) ∧
    ((adjust_audio_tempo env_cex 250).1 = [] ∧
     (adjust_audio_tempo env_cex 250).2 =
       .ok ({ tempo_applied := 1, tempo_required := 250 / 250,
              stretch_ratio := 1, processed := false,
              current_duration := 250, target_duration := 250,
              final_duration := none, duration_difference := none,
              method_atempo_fallback := false }, env_cex.inputBytes)) :=
  ⟨⟨rfl, by norm_num, rfl, rfl, by norm_num, by norm_num⟩,
   C2_amended env_cex 250 250 rfl (by norm_num) rfl rfl (by norm_num) (by norm_num)⟩

/-- C5 (confirmed): when all validations pass, the adjustment is not skipped,
and the primary backend (rubberband) fails, the fallback backend (ffmpeg
atempo) is attempted exactly once — the invoked-backend list is exactly
[rubberband, ffmpeg] — and if the fallback also fails the invocation raises
the combined fatal RuntimeError; no further attempt occurs. -/
theorem C5_confirmed (env : Env) (target current : ℚ)
    (h1 : env.inputExists = true) (h2 : 0 < target)
    (h3 : env.rubberbandAvailable = true)
    (h4 : env.probeInput = Except.ok (some current)) (h5 : current ≠ 0)
    (h6 : ¬ |max (3/10) (min 3 (target / current)) - 1| ≤ 1/20)
    (h7 : env.rubberbandOk = false) :
    (adjust_audio_tempo env target).1 = ["rubberband", "ffmpeg"] ∧
    ((adjust_audio_tempo env target).1.count ("ffmpeg")) = 1 ∧
    (env.ffmpegOk = false →
      (adjust_audio_tempo env target).2 =
        .error (.runtimeError ("Both Rubberband and FFmpeg atempo failed"))) := by
  have hadj : adjust_audio_tempo env target =
      (("rubberband") :: (fallback_to_atempo env (current / target) current target).1,
       (fallback_to_atempo env (current / target) current target).2) := by
    unfold adjust_audio_tempo
    rw [h4]
    simp only [get_audio_duration]
    rw [if_neg (by simp [h1] : ¬ (env.inputExists = false))]
    rw [if_neg (not_le.mpr h2)]
    rw [if_neg (by simp [h3] : ¬ (env.rubberbandAvailable = false))]
    rw [if_neg h5, if_neg h6]
    rw [if_neg (by simp [h7] : ¬ (env.rubberbandOk = true))]
  refine ⟨?_, ?_, ?_⟩
  · rw [hadj]
    rfl
  · rw [hadj]
    rfl
  · intro h8
    rw [hadj]
    show (fallback_to_atempo env (current / target) current target).2 = _
    unfold fallback_to_atempo
    rw [if_neg (by simp [h8] : ¬ (env.ffmpegOk = true))]

/-- Environment for the C5 witness: rubberband present but failing, ffmpeg
failing too, durations 100 → 1000 so the stretch is clamped to 3 and the
adjustment is not skipped. -/
def env_c5 : Env :=
  { inputExists := true, rubberbandAvailable := true, inputBytes := [0],
    probeInput := .ok (some 100), rubberbandOk := false, rubberbandOut := [],
    probeRubberbandOutput := .ok none, ffmpegOk := false, ffmpegOut := [],
    probeFfmpegOutput := .ok none }

/-- C5 witness: the confirmed statement at env_c5 with target 1000. -/
theorem C5_confirmed_witness :
    (adjust_audio_tempo env_c5 1000).1 = ["rubberband", "ffmpeg"] ∧
    ((adjust_audio_tempo env_c5 1000).1.count ("ffmpeg")) = 1 ∧
    (env_c5.ffmpegOk = false →
      (adjust_audio_tempo env_c5 1000).2 =
        .error (.runtimeError ("Both Rubberband and FFmpeg atempo failed"))) :=
  C5_confirmed env_c5 1000 100 rfl (by norm_num) rfl rfl (by norm_num)
    (by rw [show max (3/10) (min 3 ((1000:ℚ) / 100)) = 3 by
          rw [show ((1000:ℚ) / 100) = 10 by norm_num,
              min_eq_left (by norm_num), max_eq_right (by norm_num)]]
        rw [abs_le]
        norm_num) rfl

/-- C6 (counterexample): a probe run that exits zero with stdout parsing to
0.0 makes get_audio_duration return 0.0, a non-positive value — the source has
no positivity check. -/
theorem C6_counterexample :
    get_audio_duration (Except.ok (some 0)) = Except.ok (0:ℚ) ∧ ¬ ((0:ℚ) > 0) :=
  ⟨rfl, by norm_num⟩

/-- C6 (amended): get_audio_duration returns exactly the duration value parsed
from the probing tool's stdout — whatever its sign, since the code never
checks it — and fails with a RuntimeError precisely when the tool reports an
error or its output is unparsable. -/
theorem C6_amended (probe : Except Unit (Option ℚ)) :
    (∀ d : ℚ, get_audio_duration probe = .ok d ↔ probe = .ok (some d)) ∧
    ((probe = .error () ∨ probe = .ok none) →
      ∃ msg, get_audio_duration probe = .error (.runtimeError msg)) := by
  constructor
  · intro d
    match probe with
    | .error u => simp [get_audio_duration]
    | .ok none => simp [get_audio_duration]
    | .ok (some x) => simp [get_audio_duration]
  · rintro (h | h) <;> subst h <;> exact ⟨_, rfl⟩

/-- C6 witness: the amended statement instantiated at a failing probe. -/
theorem C6_amended_witness :
    (get_audio_duration (Except.error ()) = .ok 5 ↔
      (Except.error () : Except Unit (Option ℚ)) = .ok (some 5)) ∧
    ∃ msg, get_audio_duration (Except.error ()) = .error (.runtimeError msg) :=
  ⟨(C6_amended (Except.error ())).1 5, (C6_amended (Except.error ())).2 (Or.inl rfl)⟩

/-- C7 (confirmed): with three CLI arguments, every exception raised by
adjust_audio_tempo — in particular a missing input file, a non-positive
target duration, a missing rubberband binary, or a probe failure — makes the
process print the error message to standard error and exit 1, while a
successful run prints nothing to standard error and exits 0. -/
theorem C7_confirmed (env : Env) (target : ℚ) :
    (∀ e, (adjust_audio_tempo env target).2 = .error e →
      main_with_three_args env target = ⟨1, some (PyError.message e)⟩) ∧
    (∀ r, (adjust_audio_tempo env target).2 = .ok r →
      main_with_three_args env target = ⟨0, none⟩) ∧
    (env.inputExists = false →
      main_with_three_args env target = ⟨1, some ("Input file not found")⟩) ∧
    (env.inputExists = true → target ≤ 0 →
      main_with_three_args env target = ⟨1, some ("Target duration must be positive")⟩) ∧
    (env.inputExists = true → 0 < target → env.rubberbandAvailable = false →
      main_with_three_args env target =
        ⟨1, some ("Rubberband is not installed or not found in PATH")⟩) ∧
    (env.inputExists = true → 0 < target → env.rubberbandAvailable = true →
      env.probeInput = Except.error () →
      main_with_three_args env target = ⟨1, some ("Error getting audio duration")⟩) := by
  refine ⟨?_, ?_, ?_, ?_, ?_, ?_⟩
  · intro e he
    unfold main_with_three_args
    rw [he]
  · intro r hr
    unfold main_with_three_args
    rw [hr]
  · intro h
    have hadj : (adjust_audio_tempo env target).2 =
        .error (.fileNotFound ("Input file not found")) := by
      unfold adjust_audio_tempo
      rw [if_pos (by simp [h] : env.inputExists = false)]
    unfold main_with_three_args
    rw [hadj]
    rfl
  · intro h ht
    have hadj : (adjust_audio_tempo env target).2 =
        .error (.valueError ("Target duration must be positive")) := by
      unfold adjust_audio_tempo
      rw [if_neg (by simp [h] : ¬ (env.inputExists = false)), if_pos ht]
    unfold main_with_three_args
    rw [hadj]
    rfl
  · intro h ht hr
    have hadj : (adjust_audio_tempo env target).2 =
        .error (.runtimeError ("Rubberband is not installed or not found in PATH")) := by
      unfold adjust_audio_tempo
      rw [if_neg (by simp [h] : ¬ (env.inputExists = false)),
          if_neg (not_le.mpr ht),
          if_pos (by simp [hr] : env.rubberbandAvailable = false)]
    unfold main_with_three_args
    rw [hadj]
    rfl
  · intro h ht hr hp
    have hadj : (adjust_audio_tempo env target).2 =
        .error (.runtimeError ("Error getting audio duration")) := by
      unfold adjust_audio_tempo
      rw [if_neg (by simp [h] : ¬ (env.inputExists = false)),
          if_neg (not_le.mpr ht),
          if_neg (by simp [hr] : ¬ (env.rubberbandAvailable = false)), hp]
      rfl
    unfold main_with_three_args
    rw [hadj]
    rfl

/-- Environment for the C7 witness: the input file does not exist. -/
def env_c7 : Env :=
  { inputExists := false, rubberbandAvailable := true, inputBytes := [],
    probeInput := .ok none, rubberbandOk := false, rubberbandOut := [],
    probeRubberbandOutput := .ok none, ffmpegOk := false, ffmpegOut := [],
    probeFfmpegOutput := .ok none }

/-- C7 witness: a missing input file exits 1 with the message on stderr. -/
theorem C7_confirmed_witness :
    env_c7.inputExists = false ∧
    main_with_three_args env_c7 5 = ⟨1, some ("Input file not found")⟩ :=
  ⟨rfl, (C7_confirmed env_c7 5).2.2.1 rfl⟩

/-! ## Chunked processing loop (separate_audio.py, lines 15-58) -/

/-- Ceiling measure step used by the chunk loop: subtracting one from a value
at least 1 strictly decreases its natural ceiling. -/
theorem ceil_sub_one_lt {x : ℚ} (hx : 1 ≤ x) : Nat.ceil (x - 1) < Nat.ceil x := by
  have key : (Nat.ceil (x - 1) : ℚ) < Nat.ceil x := by
    calc (Nat.ceil (x - 1) : ℚ) < (x - 1) + 1 := Nat.ceil_lt_add_one (by linarith)
    _ = x := by ring
    _ ≤ Nat.ceil x := Nat.le_ceil _
  exact_mod_cast key

/-- One yielded tuple of process_audio_chunks: nominal chunk boundaries
(start_time, end_time) and the overlapped load window (chunk_start,
chunk_end).  The audio samples themselves are loaded by librosa and are not
part of the boundary computation. -/
structure AudioChunk where
  start_time : ℚ
  end_time : ℚ
  chunk_start : ℚ
  chunk_end : ℚ
  deriving DecidableEq

/-- Loop of process_audio_chunks (lines 33-58): `start_time = 0;
while start_time < duration: end_time = min(start_time + chunk_duration,
duration); ... yield ...; start_time = end_time`.  The source loop condition
is only `start_time < duration`; the conjunct `0 < chunk_duration` is a
termination guard that differs from the source only for non-positive chunk
durations, on which the source loop would never terminate — the claim under
proof assumes a positive chunk duration. -/
def process_audio_chunks_loop (start_time duration chunk_duration overlap : ℚ) :
    List AudioChunk :=
  if h : 0 < chunk_duration ∧ start_time < duration then
    { start_time := start_time,
      end_time := min (start_time + chunk_duration) duration,
      chunk_start := max 0 (start_time - overlap),
      chunk_end := min duration (min (start_time + chunk_duration) duration + overlap) } ::
    process_audio_chunks_loop (min (start_time + chunk_duration) duration)
      duration chunk_duration overlap
  else []
termination_by Nat.ceil ((duration - start_time) / chunk_duration)
decreasing_by
  obtain ⟨hc, hlt⟩ := h
  by_cases hcase : start_time + chunk_duration ≤ duration
  · rw [min_eq_left hcase]
    have e : (duration - (start_time + chunk_duration)) / chunk_duration
        = (duration - start_time) / chunk_duration - 1 := by
      rw [show duration - (start_time + chunk_duration)
            = (duration - start_time) - chunk_duration by ring,
          sub_div, div_self (ne_of_gt hc)]
    rw [e]
    refine ceil_sub_one_lt ?_
    rw [le_div_iff₀ hc]
    linarith
  · rw [min_eq_right (le_of_not_le hcase)]
    have h0 : Nat.ceil ((duration - duration) / chunk_duration) = 0 := by
      simp
    rw [h0]
    exact Nat.ceil_pos.mpr (div_pos (by linarith) hc)

/-- Boundary sequence yielded by process_audio_chunks for a file of the given
duration (the function's defaults are chunk_duration = 30, overlap = 2; the
duration itself is probed from the file by librosa). -/
def process_audio_chunks (duration chunk_duration overlap : ℚ) : List AudioChunk :=
  process_audio_chunks_loop 0 duration chunk_duration overlap

theorem process_audio_chunks_loop_pos (s d c ov : ℚ) (hc : 0 < c) (hlt : s < d) :
    process_audio_chunks_loop s d c ov =
      { start_time := s, end_time := min (s + c) d, chunk_start := max 0 (s - ov),
        chunk_end := min d (min (s + c) d + ov) } ::
      process_audio_chunks_loop (min (s + c) d) d c ov := by
  rw [process_audio_chunks_loop, dif_pos ⟨hc, hlt⟩]

theorem process_audio_chunks_loop_neg (s d c ov : ℚ) (h : ¬ (0 < c ∧ s < d)) :
    process_audio_chunks_loop s d c ov = [] := by
  rw [process_audio_chunks_loop, dif_neg h]

/-- Invariants of the chunk loop from any start position: the yielded list is
nonempty, starts at the given position, each end is min(start + c, d), starts
chain on previous ends, and the last end is exactly the duration. -/
theorem process_audio_chunks_loop_spec (d c ov : ℚ) (hc : 0 < c) :
    ∀ n : ℕ, ∀ s : ℚ, Nat.ceil ((d - s) / c) ≤ n → s < d →
      process_audio_chunks_loop s d c ov ≠ [] ∧
      ((process_audio_chunks_loop s d c ov).head?.map AudioChunk.start_time) = some s ∧
      (∀ ch ∈ process_audio_chunks_loop s d c ov,
        ch.end_time = min (ch.start_time + c) d) ∧
      List.Chain' (fun a b => b.start_time = a.end_time)
        (process_audio_chunks_loop s d c ov) ∧
      ((process_audio_chunks_loop s d c ov).getLast?.map AudioChunk.end_time) = some d := by
  intro n
  induction n with
  | zero =>
    intro s hn hlt
    exfalso
    have hp : 0 < Nat.ceil ((d - s) / c) :=
      Nat.ceil_pos.mpr (div_pos (by linarith) hc)
    omega
  | succ n ih =>
    intro s hn hlt
    rw [process_audio_chunks_loop_pos s d c ov hc hlt]
    by_cases hcase : d ≤ s + c
    · have hmin : min (s + c) d = d := min_eq_right hcase
      rw [hmin]
      have hnil : process_audio_chunks_loop d d c ov = [] :=
        process_audio_chunks_loop_neg _ _ _ _ (fun hcon => lt_irrefl d hcon.2)
      rw [hnil]
      refine ⟨by simp, by simp, ?_, by simp, by simp⟩
      intro ch hch
      simp only [List.mem_singleton] at hch
      subst hch
      simp [hmin]
    · push_neg at hcase
      have hmin : min (s + c) d = s + c := min_eq_left (le_of_lt hcase)
      rw [hmin]
      have e : (d - (s + c)) / c = (d - s) / c - 1 := by
        rw [show d - (s + c) = (d - s) - c by ring, sub_div, div_self (ne_of_gt hc)]
      have hmeas : Nat.ceil ((d - (s + c)) / c) ≤ n := by
        have hlt2 : Nat.ceil ((d - (s + c)) / c) < Nat.ceil ((d - s) / c) := by
          rw [e]
          refine ceil_sub_one_lt ?_
          rw [le_div_iff₀ hc]
          linarith
        omega
      obtain ⟨hne, hhead, hall, hchain, hlast⟩ := ih (s + c) hmeas hcase
      cases hL : process_audio_chunks_loop (s + c) d c ov with
      | nil => exact absurd hL hne
      | cons z L2 =>
        rw [hL] at hhead hall hchain hlast
        have hz : z.start_time = s + c := by
          simp only [List.head?_cons, Option.map_some] at hhead
          exact Option.some.inj hhead
        refine ⟨by simp, by simp, ?_, ?_, ?_⟩
        · intro ch hch
          rcases List.mem_cons.mp hch with rfl | hch
          · simp [hmin]
          · exact hall ch hch
        · refine List.chain'_cons.mpr ⟨?_, hchain⟩
          simp [hz]
        · rw [List.getLast?_cons_cons]
          exact hlast

/-- C9 (confirmed): for every duration d > 0, chunk duration c > 0 and any
overlap, the chunk loop terminates (it is a total function in this model,
with the source's loop measure) and the yielded (start_time, end_time)
intervals exactly tile [0, d]: the list is nonempty, the first start is 0,
each end is min(start + c, d), each subsequent start equals the previous end,
and the final end is d. -/
theorem C9_confirmed (d c ov : ℚ) (hd : 0 < d) (hc : 0 < c) :
    process_audio_chunks d c ov ≠ [] ∧
    ((process_audio_chunks d c ov).head?.map AudioChunk.start_time) = some 0 ∧
    (∀ ch ∈ process_audio_chunks d c ov, ch.end_time = min (ch.start_time + c) d) ∧
    List.Chain' (fun a b => b.start_time = a.end_time) (process_audio_chunks d c ov) ∧
    ((process_audio_chunks d c ov).getLast?.map AudioChunk.end_time) = some d := by
  have h0 : (0:ℚ) < d := hd
  have := process_audio_chunks_loop_spec d c ov hc (Nat.ceil ((d - 0) / c)) 0 le_rfl h0
  simpa [process_audio_chunks] using this

/-- C9 witness: the tiling invariants at duration 5, chunk duration 2,
overlap 1. -/
theorem C9_confirmed_witness :
    ((0:ℚ) < 5 ∧ (0:ℚ) < 2) ∧
    (process_audio_chunks 5 2 1 ≠ [] ∧
     ((process_audio_chunks 5 2 1).head?.map AudioChunk.start_time) = some 0 ∧
     (∀ ch ∈ process_audio_chunks 5 2 1, ch.end_time = min (ch.start_time + 2) 5) ∧
     List.Chain' (fun a b => b.start_time = a.end_time) (process_audio_chunks 5 2 1) ∧
     ((process_audio_chunks 5 2 1).getLast?.map AudioChunk.end_time) = some 5) :=
  ⟨⟨by norm_num, by norm_num⟩, C9_confirmed 5 2 1 (by norm_num) (by norm_num)⟩

/-! ## Segment-size heuristic (separate_audio_demucs.py, lines 13-22) -/

/-- Memory-based segment-size table (get_optimal_segment_size): at least 6 GB
gives 10, at least 4 GB gives 8, at least 2 GB gives 4, anything less
gives 2. -/
def get_optimal_segment_size (available_memory_gb : ℚ) : ℕ :=
  if 6 ≤ available_memory_gb then 10
  else if 4 ≤ available_memory_gb then 8
  else if 2 ≤ available_memory_gb then 4
  else 2

/-- C10 (confirmed): get_optimal_segment_size is total, its result is always
one of {2, 4, 8, 10}, and it is monotone nondecreasing in the available
memory. -/
theorem C10_confirmed :
    (∀ a : ℚ, get_optimal_segment_size a = 2 ∨ get_optimal_segment_size a = 4 ∨
      get_optimal_segment_size a = 8 ∨ get_optimal_segment_size a = 10) ∧
    (∀ a b : ℚ, a ≤ b → get_optimal_segment_size a ≤ get_optimal_segment_size b) := by
  constructor
  · intro a
    unfold get_optimal_segment_size
    split_ifs <;> simp
  · intro a b hab
    unfold get_optimal_segment_size
    split_ifs with h1 h2 h3 h4 h5 h6 h7 <;> first
      | rfl
      | omega
      | (exfalso; linarith)

/-- C10 witness: monotonicity applied at 1 ≤ 7. -/
theorem C10_confirmed_witness :
    (1:ℚ) ≤ 7 ∧ get_optimal_segment_size 1 ≤ get_optimal_segment_size 7 :=
  ⟨by norm_num, C10_confirmed.2 1 7 (by norm_num)⟩

/-! ## Download script (download_audio.py) -/

/-- Expressions of the small Python fragment covering the module body of
download_audio.py.  Name resolution is the semantics that matters here:
evaluating a name not bound in the module namespace raises NameError
(carrying the name).  True and False are keyword literals, not names. -/
inductive PyExpr
  | name (s : String)
  | boolLit (b : Bool)
  | subscript (e : PyExpr) (i : ℕ)
  | attr (e : PyExpr) (field : String)
  | call0 (f : PyExpr)
  | call1 (f : PyExpr) (a : PyExpr)
  | kwcall (f : PyExpr) (a : PyExpr) (kw : String) (v : PyExpr)
  | kwonlycall (f : PyExpr) (kw : String) (v : PyExpr)
  deriving DecidableEq

/-- External effect performed by a call: invoking a method named download
downloads the stream; every other call in this script is effect-free for the
purpose of the claim. -/
def callEffect : PyExpr → List String
  | .attr _ f => if f = ("download") then [("download")] else []
  | _ => []

/-- Evaluation of an expression: the effects performed (in order) and the
name whose lookup raised NameError, if any.  Python evaluates the function
expression first, then the positional argument, then keyword values, and
performs the call only if none of those raised. -/
def evalExpr (env : List String) : PyExpr → List String × Option String
  | .name s => ([], if s ∈ env then none else some s)
  | .boolLit _ => ([], none)
  | .subscript e _ => evalExpr env e
  | .attr e _ => evalExpr env e
  | .call0 f =>
      let rf := evalExpr env f
      match rf.2 with
      | some n => (rf.1, some n)
      | none => (rf.1 ++ callEffect f, none)
  | .call1 f a =>
      let rf := evalExpr env f
      match rf.2 with
      | some n => (rf.1, some n)
      | none =>
        let ra := evalExpr env a
        match ra.2 with
        | some n => (rf.1 ++ ra.1, some n)
        | none => (rf.1 ++ ra.1 ++ callEffect f, none)
  | .kwcall f a _ v =>
      let rf := evalExpr env f
      match rf.2 with
      | some n => (rf.1, some n)
      | none =>
        let ra := evalExpr env a
        match ra.2 with
        | some n => (rf.1 ++ ra.1, some n)
        | none =>
          let rv := evalExpr env v
          match rv.2 with
          | some n => (rf.1 ++ ra.1 ++ rv.1, some n)
          | none => (rf.1 ++ ra.1 ++ rv.1 ++ callEffect f, none)
  | .kwonlycall f _ v =>
      let rf := evalExpr env f
      match rf.2 with
      | some n => (rf.1, some n)
      | none =>
        let rv := evalExpr env v
        match rv.2 with
        | some n => (rf.1 ++ rv.1, some n)
        | none => (rf.1 ++ rv.1 ++ callEffect f, none)

/-- Statements of the module body: an assignment binds its target name only
after the right-hand side evaluates without raising. -/
inductive PyStmt
  | assignStmt (x : String) (e : PyExpr)
  | exprStmt (e : PyExpr)
  deriving DecidableEq

/-- Sequential execution of the module body: effects accumulate across
statements; the first raised NameError aborts the remainder. -/
def runStmts (env : List String) : List PyStmt → List String × Option String
  | [] => ([], none)
  | .assignStmt x e :: rest =>
      let r := evalExpr env e
      match r.2 with
      | some n => (r.1, some n)
      | none =>
        let rr := runStmts (x :: env) rest
        (r.1 ++ rr.1, rr.2)
  | .exprStmt e :: rest =>
      let r := evalExpr env e
      match r.2 with
      | some n => (r.1, some n)
      | none =>
        let rr := runStmts env rest
        (r.1 ++ rr.1, rr.2)

/-- Names in scope after the imports of download_audio.py (lines 1-3): sys,
YouTube and on_progress, plus ever-present builtins the script could touch.
Python's capitalized True and False exist as well; the lowercase name `true`
is not defined anywhere. -/
def downloadModuleEnv : List String :=
  [("sys"), ("YouTube"), ("on_progress"), ("True"), ("False"), ("None"),
   ("print"), ("len"), ("str"), ("int"), ("float")]

/-- Module body of download_audio.py (lines 5-14), one entry per statement:
`url = sys.argv[1]`, `output_filename = sys.argv[2]`,
`yt = YouTube(url, use_po_token = true)`,
`audio_stream = yt.streams.filter(only_audio=True).first()`,
`audio_stream.download(filename=output_filename)`. -/
def download_audio_script : List PyStmt :=
  [ .assignStmt ("url") (.subscript (.attr (.name ("sys")) ("argv")) 1),
    .assignStmt ("output_filename") (.subscript (.attr (.name ("sys")) ("argv")) 2),
    .assignStmt ("yt")
      (.kwcall (.name ("YouTube")) (.name ("url")) ("use_po_token") (.name ("true"))),
    .assignStmt ("audio_stream")
      (.call0 (.attr
        (.kwonlycall (.attr (.attr (.name ("yt")) ("streams")) ("filter"))
          ("only_audio") (.boolLit true))
        ("first"))),
    .exprStmt
      (.kwonlycall (.attr (.name ("audio_stream")) ("download"))
        ("filename") (.name ("output_filename"))) ]

/-- Execution of the module body for given command-line arguments.  The
argument values never enter name resolution — the only semantics that runs
before the failure — so they are carried only to mirror the script's
signature. -/
def download_audio_run (_argv1 _argv2 : String) : List String × Option String :=
  runStmts downloadModuleEnv download_audio_script

/-- Sanity check that the download effect is reachable in this semantics:
were the lowercase name `true` bound in the module namespace, the script
would run to completion and perform exactly one download. -/
theorem download_audio_run_with_true_bound :
    runStmts (("true") :: downloadModuleEnv) download_audio_script =
      ([("download")], none) := rfl

/-- C8 (confirmed): for every command-line input, the module body of
download_audio.py raises NameError on the undefined lowercase name `true`
(line 8, `use_po_token = true`) before any download effect is performed, so
the script never completes successfully. -/
theorem C8_confirmed (argv1 argv2 : String) :
    download_audio_run argv1 argv2 = ([], some ("true")) := rfl
